import Mathlib

/-!
Shallow embedding of the interactive-gallery core of `manifesta3`
(`src/Experience/Experience.jsx`): the zoom/pan controller
(`handleZoom`, `handleDrag`), the selection/popup state machine
(`handleImageClick`, `handleClosePopup`, `handleNext`, `handlePrevious`),
the keyboard pan animator (`handleKeyDown` and the `useFrame` smoothing
step in `SceneContent`), and the popup scale-in animation of
`FixedImagePopup`.  JavaScript numbers are modelled as exact rationals
(every constant in the source is a dyadic rational); the JavaScript value
stored in `selectedImageIndex` — which can be `null`, a number, or `NaN`
after a remainder by zero — is modelled by `JSVal`.  React state setters
are modelled by explicit state passing; within one handler the last
queued `set` wins, which the sequential translation reproduces.
-/

/-- A 2D offset, the `position` state `{x, y}` used by `handleDrag` / `handleZoom`. -/
structure Vec2 where
  x : ℚ
  y : ℚ
deriving DecidableEq

/-- A 3D vector, as used by the camera position / look-at target refs. -/
structure Vec3 where
  x : ℚ
  y : ℚ
  z : ℚ
deriving DecidableEq

/-- Componentwise sum, `THREE.Vector3.add`. -/
def Vec3.add (a b : Vec3) : Vec3 :=
  ⟨a.x + b.x, a.y + b.y, a.z + b.z⟩

/-- Scalar multiple, `THREE.Vector3.multiplyScalar`. -/
def Vec3.smul (c : ℚ) (a : Vec3) : Vec3 :=
  ⟨c * a.x, c * a.y, c * a.z⟩

/-- `THREE.Vector3.lerp a b t`: move `a` toward `b` by the fraction `t` of the
remaining distance, componentwise `a + (b - a) * t`. -/
def Vec3.lerp (a b : Vec3) (t : ℚ) : Vec3 :=
  ⟨a.x + (b.x - a.x) * t, a.y + (b.y - a.y) * t, a.z + (b.z - a.z) * t⟩

/-- Squared Euclidean distance.  `THREE.Vector3.distanceTo a b < c` (for `c ≥ 0`)
is embedded as `dist2 a b < c ^ 2`, avoiding the square root. -/
def dist2 (a b : Vec3) : ℚ :=
  (a.x - b.x) ^ 2 + (a.y - b.y) ^ 2 + (a.z - b.z) ^ 2

/-! ### Zoom/Pan controller (`handleDrag`, `handleZoom`) -/

/-- State owned by the zoom/pan controller: `currentZoomLevel` and the 2D
`position` offset. -/
structure ZoomPanState where
  currentZoomLevel : ℚ
  position : Vec2
deriving DecidableEq

/-- `const minZoomLevel = 15.0` — the maximum zoomed-out level (largest numeric value). -/
def minZoomLevel : ℚ := 15

/-- `const maxZoomLevel = 1.0` — the maximum zoomed-in level (smallest numeric value). -/
def maxZoomLevel : ℚ := 1

/-- `handleDrag(e)`: pan-speed factor 2.5, raised to 3.0 when
`currentZoomLevel < 5.0`; adds `movement * panSpeedFactor` to each axis of
the position offset. -/
def handleDrag (currentZoomLevel movementX movementY : ℚ) (position : Vec2) : Vec2 :=
  let panSpeedFactor : ℚ := if currentZoomLevel < 5 then 3 else 5 / 2
  let deltaX := movementX * panSpeedFactor
  let deltaY := movementY * panSpeedFactor
  ⟨position.x + deltaX, position.y + deltaY⟩

/-- `handleZoom(delta)`: compute `newZoomLevel = currentZoomLevel + delta`;
accept it when it lies in `[maxZoomLevel, minZoomLevel]`, resetting the
offset when it lands exactly on `minZoomLevel`; otherwise clamp to the
violated bound, resetting the offset when clamping to `minZoomLevel`;
finally, if the level before the call was already `minZoomLevel`, force the
offset to `{0,0}`. -/
def handleZoom (s : ZoomPanState) (delta : ℚ) : ZoomPanState :=
  let newZoomLevel := s.currentZoomLevel + delta
  let s1 : ZoomPanState :=
    if maxZoomLevel ≤ newZoomLevel ∧ newZoomLevel ≤ minZoomLevel then
      { currentZoomLevel := newZoomLevel
        position := if newZoomLevel = minZoomLevel then ⟨0, 0⟩ else s.position }
    else if newZoomLevel < maxZoomLevel then
      { s with currentZoomLevel := maxZoomLevel }
    else
      { currentZoomLevel := minZoomLevel, position := ⟨0, 0⟩ }
  if s.currentZoomLevel = minZoomLevel then { s1 with position := ⟨0, 0⟩ } else s1

/-! ### Selection / popup state machine (`Experience`) -/

/-- The JavaScript value held in `selectedImageIndex`: `null` (initial state),
a number, or `NaN` (the result of a remainder by zero). -/
inductive JSVal where
  | null : JSVal
  | num : ℤ → JSVal
  | nan : JSVal
deriving DecidableEq

/-- JavaScript remainder `a % b` on integer-valued numbers with a nonnegative
divisor: `NaN` when the divisor is `0`, otherwise the truncated remainder
(sign of the dividend), which is `Int.tmod`. -/
def jsMod (a : ℤ) (b : ℕ) : JSVal :=
  if b = 0 then JSVal.nan else JSVal.num (Int.tmod a b)

/-- JavaScript `v + 1` on a `selectedImageIndex` value: `null` coerces to `0`,
`NaN` propagates. -/
def jsAdd1 : JSVal → Option ℤ
  | JSVal.null => some 1
  | JSVal.num j => some (j + 1)
  | JSVal.nan => none

/-- JavaScript `v - 1 + n` on a `selectedImageIndex` value. -/
def jsSub1Add (n : ℕ) : JSVal → Option ℤ
  | JSVal.null => some (n - 1)
  | JSVal.num j => some (j - 1 + n)
  | JSVal.nan => none

/-- Selection/popup state of the `Experience` component. -/
structure SelectionState where
  selectedImageIndex : Option JSVal
  showPopup : Bool
deriving DecidableEq

/-- `handleNext`: `setSelectedImageIndex((prev) => (prev + 1) % imagesData.length)`,
acting on the stored JavaScript value (`len` is the catalog length). -/
def handleNext (len : ℕ) (v : JSVal) : JSVal :=
  match jsAdd1 v with
  | some a => jsMod a len
  | none => JSVal.nan

/-- `handlePrevious`: `setSelectedImageIndex((prev) => (prev - 1 + imagesData.length) % imagesData.length)`. -/
def handlePrevious (len : ℕ) (v : JSVal) : JSVal :=
  match jsSub1Add len v with
  | some a => jsMod a len
  | none => JSVal.nan

/-- `Array.prototype.findIndex`: the first index whose record's `id` matches,
or `-1` when none matches (`ids` is the catalog's list of ids). -/
def jsFindIndex (ids : List ℤ) (id : ℤ) : ℤ :=
  match ids.findIdx? (fun i => i = id) with
  | some n => (n : ℤ)
  | none => -1

/-- `handleImageClick(id, path, position)`: looks up the catalog index of `id`
with `findIndex`, stores it in `selectedImageIndex`, and sets `showPopup`. -/
def handleImageClick (ids : List ℤ) (id : ℤ) (s : SelectionState) : SelectionState :=
  { s with
    selectedImageIndex := some (JSVal.num (jsFindIndex ids id))
    showPopup := true }

/-- `handleClosePopup()`: `setShowPopup(false)` and nothing else. -/
def handleClosePopup (s : SelectionState) : SelectionState :=
  { s with showPopup := false }

/-! ### Keyboard pan animator (`SceneContent`) -/

/-- State touched by the keyboard pan animator: the live camera position and
controls look-at target, the two pending-target refs (initially `null`),
and the `isAnimatingPanRef` flag. -/
structure PanState where
  camPos : Vec3
  lookAt : Vec3
  targetCamPos : Option Vec3
  targetLookAt : Option Vec3
  isAnimatingPan : Bool
deriving DecidableEq

/-- The recognized keyboard keys. -/
inductive Key where
  | arrowUp : Key
  | arrowDown : Key
  | arrowLeft : Key
  | arrowRight : Key
  | other : Key
deriving DecidableEq

/-- `handleKeyDown(event)`: returns immediately while the popup is shown;
otherwise initializes the pending-target refs from the current camera
position / look-at when they are still `null`, computes a pan offset of
length `moveDistance = 0.2` along the camera's local up axis (matrix
column 1) or right axis (column 0), and, for a recognized arrow key, adds
it to both pending targets and arms the animation.  `right` and `up` are
the camera matrix's column 0 and column 1. -/
def handleKeyDown (showPopup : Bool) (right up : Vec3) (key : Key) (s : PanState) : PanState :=
  if showPopup then s
  else
    let moveDistance : ℚ := 1 / 5
    let tp := s.targetCamPos.getD s.camPos
    let tl := s.targetLookAt.getD s.lookAt
    let panOffset : Option Vec3 :=
      match key with
      | Key.arrowUp => some (Vec3.smul moveDistance up)
      | Key.arrowDown => some (Vec3.smul (-moveDistance) up)
      | Key.arrowLeft => some (Vec3.smul (-moveDistance) right)
      | Key.arrowRight => some (Vec3.smul moveDistance right)
      | Key.other => none
    match panOffset with
    | some off =>
        { s with
          targetCamPos := some (tp.add off)
          targetLookAt := some (tl.add off)
          isAnimatingPan := true }
    | none =>
        { s with targetCamPos := some tp, targetLookAt := some tl }

/-- The `useFrame` smoothing step of `SceneContent`: while animating with both
targets set, lerp position and look-at toward their targets by
`smoothingFactor = 0.1`; when both remaining distances drop below
`distanceThreshold = 0.01`, snap to the targets and clear the animating
flag (the target refs themselves are left in place). -/
def useFramePanStep (s : PanState) : PanState :=
  match s.isAnimatingPan, s.targetCamPos, s.targetLookAt with
  | true, some tp, some tl =>
      let smoothingFactor : ℚ := 1 / 10
      let p := Vec3.lerp s.camPos tp smoothingFactor
      let t := Vec3.lerp s.lookAt tl smoothingFactor
      if dist2 p tp < (1 / 100) ^ 2 ∧ dist2 t tl < (1 / 100) ^ 2 then
        { s with camPos := tp, lookAt := tl, isAnimatingPan := false }
      else
        { s with camPos := p, lookAt := t }
  | _, _, _ => s

/-! ### Popup scale-in animation (`FixedImagePopup`) -/

/-- `Math.abs` on an exact rational. -/
def jsAbs (q : ℚ) : ℚ := if q < 0 then -q else q

/-- One frame of the popup scale-in loop: `scale += (1 - scale) * 0.15`; if
`Math.abs(scale - 1) > 0.01` the new value stands (and another frame is
scheduled), otherwise the scale snaps to exactly `1`. -/
def popupStep (scale : ℚ) : ℚ :=
  let s := scale + (1 - scale) * (15 / 100)
  if jsAbs (s - 1) > 1 / 100 then s else 1

/-! ## Claims -/

/-- C1: for every starting zoom state with
`maxZoomLevel ≤ level ≤ minZoomLevel` and every numeric `delta`, the level
after `handleZoom delta` again satisfies
`maxZoomLevel ≤ level ≤ minZoomLevel`. -/
theorem handleZoom_level_in_bounds (s : ZoomPanState) (delta : ℚ)
    (h : maxZoomLevel ≤ s.currentZoomLevel ∧ s.currentZoomLevel ≤ minZoomLevel) :
    maxZoomLevel ≤ (handleZoom s delta).currentZoomLevel ∧
      (handleZoom s delta).currentZoomLevel ≤ minZoomLevel := by
  obtain ⟨h1, h2⟩ := h
  unfold handleZoom minZoomLevel maxZoomLevel at *
  simp only [apply_ite ZoomPanState.currentZoomLevel]
  constructor <;> (split_ifs <;> simp_all)

/-- Witness for C1 at the state `level = 5`, `offset = (0,0)` with `delta = 100`. -/
theorem handleZoom_level_in_bounds_witness :
    (maxZoomLevel ≤ (ZoomPanState.mk 5 ⟨0, 0⟩).currentZoomLevel ∧
        (ZoomPanState.mk 5 ⟨0, 0⟩).currentZoomLevel ≤ minZoomLevel) ∧
      (maxZoomLevel ≤ (handleZoom ⟨5, ⟨0, 0⟩⟩ 100).currentZoomLevel ∧
        (handleZoom ⟨5, ⟨0, 0⟩⟩ 100).currentZoomLevel ≤ minZoomLevel) :=
  ⟨by norm_num [minZoomLevel, maxZoomLevel],
    handleZoom_level_in_bounds ⟨5, ⟨0, 0⟩⟩ 100 (by norm_num [minZoomLevel, maxZoomLevel])⟩

/-- C2: whenever the level resulting from `handleZoom delta` equals
`minZoomLevel` (the fully zoomed-out extreme), the resulting pan offset is
`{0,0}` — both the accepted-at-min case and the clamped-from-above case
reset the offset. -/
theorem handleZoom_at_min_recenters (s : ZoomPanState) (delta : ℚ)
    (h : (handleZoom s delta).currentZoomLevel = minZoomLevel) :
    (handleZoom s delta).position = ⟨0, 0⟩ := by
  unfold handleZoom minZoomLevel maxZoomLevel at *
  simp only [apply_ite ZoomPanState.currentZoomLevel,
    apply_ite ZoomPanState.position] at *
  split_ifs at * <;> simp_all

/-- Witness for C2 at the state `level = 14`, `offset = (3,4)` with `delta = 1`. -/
theorem handleZoom_at_min_recenters_witness :
    (handleZoom ⟨14, ⟨3, 4⟩⟩ 1).currentZoomLevel = minZoomLevel ∧
      (handleZoom ⟨14, ⟨3, 4⟩⟩ 1).position = ⟨0, 0⟩ :=
  ⟨by norm_num [handleZoom, minZoomLevel, maxZoomLevel],
    handleZoom_at_min_recenters ⟨14, ⟨3, 4⟩⟩ 1
      (by norm_num [handleZoom, minZoomLevel, maxZoomLevel])⟩

/-- C7: while the popup is visible, `handleKeyDown` returns before touching
anything: no pending camera target is created or modified and the animator
state is untouched, for every key and camera basis. -/
theorem handleKeyDown_ignored_when_popup_shown (right up : Vec3) (key : Key) (s : PanState) :
    handleKeyDown true right up key s = s := rfl

/-- C8: `handleDrag` adds `movement * multiplier` to each axis of the offset,
where the multiplier is `3.0` when the zoom level is strictly below `5.0`
and `2.5` otherwise; in particular `movementX = 4` at level `3.0` raises
`offset.x` by exactly `12`. -/
theorem handleDrag_zoom_adaptive_multiplier (level mx my : ℚ) (p : Vec2) :
    handleDrag level mx my p =
      ⟨p.x + mx * (if level < 5 then 3 else 5 / 2),
        p.y + my * (if level < 5 then 3 else 5 / 2)⟩ ∧
      (handleDrag 3 4 0 p).x = p.x + 12 := by
  constructor
  · rfl
  · norm_num [handleDrag]

/-- C9: for every state with the popup open, `handleClosePopup` sets
`showPopup` to `false` and leaves `selectedImageIndex` (the only other
field) at its prior value. -/
theorem handleClosePopup_hides_and_keeps_index (s : SelectionState)
    (h : s.showPopup = true) :
    (handleClosePopup s).showPopup = false ∧
      (handleClosePopup s).selectedImageIndex = s.selectedImageIndex :=
  ⟨rfl, rfl⟩

/-- Witness for C9 at the open state with `selectedImageIndex = 2`. -/
theorem handleClosePopup_hides_and_keeps_index_witness :
    (SelectionState.mk (some (JSVal.num 2)) true).showPopup = true ∧
      ((handleClosePopup ⟨some (JSVal.num 2), true⟩).showPopup = false ∧
        (handleClosePopup ⟨some (JSVal.num 2), true⟩).selectedImageIndex =
          (SelectionState.mk (some (JSVal.num 2)) true).selectedImageIndex) :=
  ⟨rfl, handleClosePopup_hides_and_keeps_index ⟨some (JSVal.num 2), true⟩ rfl⟩

/-- C6: once converged — the pan animator is idle (`isAnimatingPan = false`,
which is what the frame step leaves behind after snapping to its target),
and the popup scale has snapped to exactly `1` — every further frame tick
is a no-op: the pan frame step returns the state unchanged and the popup
scale step keeps the scale at `1`. -/
theorem converged_frame_steps_are_noops (s : PanState)
    (h : s.isAnimatingPan = false) :
    useFramePanStep s = s ∧ popupStep 1 = 1 := by
  constructor
  · obtain ⟨c, l, tp, tl, anim⟩ := s
    cases anim
    · cases tp <;> cases tl <;> rfl
    · simp at h
  · norm_num [popupStep, jsAbs]

/-- Witness for C6 at a concrete idle pan state. -/
theorem converged_frame_steps_are_noops_witness :
    (PanState.mk ⟨0, 0, 10⟩ ⟨0, 0, 0⟩ (some ⟨1, 2, 3⟩) (some ⟨1, 2, 0⟩) false).isAnimatingPan
        = false ∧
      (useFramePanStep ⟨⟨0, 0, 10⟩, ⟨0, 0, 0⟩, some ⟨1, 2, 3⟩, some ⟨1, 2, 0⟩, false⟩ =
          ⟨⟨0, 0, 10⟩, ⟨0, 0, 0⟩, some ⟨1, 2, 3⟩, some ⟨1, 2, 0⟩, false⟩ ∧
        popupStep 1 = 1) :=
  ⟨rfl, converged_frame_steps_are_noops
    ⟨⟨0, 0, 10⟩, ⟨0, 0, 0⟩, some ⟨1, 2, 3⟩, some ⟨1, 2, 0⟩, false⟩ rfl⟩

/-- On a nonempty catalog, `handleNext` on a nonnegative stored index takes
`j` to `(j + 1) % n` (the truncated JavaScript remainder agrees with the
Euclidean one on nonnegative operands). -/
theorem handleNext_num (n : ℕ) (hn : 0 < n) (j : ℤ) (hj : 0 ≤ j) :
    handleNext n (JSVal.num j) = JSVal.num ((j + 1) % n) := by
  simp only [handleNext, jsAdd1, jsMod]
  rw [if_neg (by omega), Int.tmod_eq_emod (by omega) (by positivity)]

/-- On a nonempty catalog, `handlePrevious` on a nonnegative stored index
takes `j` to `(j - 1 + n) % n`. -/
theorem handlePrevious_num (n : ℕ) (hn : 0 < n) (j : ℤ) (hj : 0 ≤ j) :
    handlePrevious n (JSVal.num j) = JSVal.num ((j - 1 + n) % n) := by
  simp only [handlePrevious, jsSub1Add, jsMod]
  rw [if_neg (by omega), Int.tmod_eq_emod (by omega) (by positivity)]

/-- `k` iterations of `handleNext` from a valid index `i` land on `(i + k) % n`. -/
theorem handleNext_iterate (n : ℕ) (hn : 0 < n) (i : ℤ) (h0 : 0 ≤ i) (hi : i < n)
    (k : ℕ) :
    (handleNext n)^[k] (JSVal.num i) = JSVal.num ((i + k) % n) := by
  induction k with
  | zero => simp [Int.emod_eq_of_lt h0 hi]
  | succ k ih =>
      rw [Function.iterate_succ_apply', ih,
        handleNext_num n hn _ (Int.emod_nonneg _ (by omega)), Int.emod_add_emod]
      congr 1
      push_cast
      ring

/-- `k` iterations of `handlePrevious` from a valid index `i` land on `(i - k) % n`. -/
theorem handlePrevious_iterate (n : ℕ) (hn : 0 < n) (i : ℤ) (h0 : 0 ≤ i) (hi : i < n)
    (k : ℕ) :
    (handlePrevious n)^[k] (JSVal.num i) = JSVal.num ((i - k) % n) := by
  induction k with
  | zero => simp [Int.emod_eq_of_lt h0 hi]
  | succ k ih =>
      rw [Function.iterate_succ_apply', ih,
        handlePrevious_num n hn _ (Int.emod_nonneg _ (by omega))]
      congr 1
      rw [show (i - (k : ℤ)) % n - 1 + n = (i - (k : ℤ)) % n + (n - 1) by ring,
        Int.emod_add_emod,
        show i - (k : ℤ) + ((n : ℤ) - 1) = i - (k : ℤ) - 1 + (n : ℤ) * 1 by ring,
        Int.add_mul_emod_self_left]
      congr 1
      push_cast
      ring

/-- C3: on a catalog of length `n > 0` and a valid starting index `i`, `k`
calls of `handleNext` yield index `(i + k) mod n` and `k` calls of
`handlePrevious` yield `(i - k + k*n) mod n`; in particular three
`handleNext` calls on a 3-element catalog starting at index 0 return to 0. -/
theorem next_previous_mod_cycle (n : ℕ) (i : ℤ) (k : ℕ) (hn : 0 < n)
    (hi : 0 ≤ i ∧ i < n) :
    (handleNext n)^[k] (JSVal.num i) = JSVal.num ((i + k) % n) ∧
      (handlePrevious n)^[k] (JSVal.num i) = JSVal.num ((i - k + k * n) % n) ∧
      (handleNext 3)^[3] (JSVal.num 0) = JSVal.num 0 := by
  refine ⟨handleNext_iterate n hn i hi.1 hi.2 k, ?_, by decide⟩
  rw [handlePrevious_iterate n hn i hi.1 hi.2 k,
    show i - (k : ℤ) + (k : ℤ) * (n : ℤ) = i - (k : ℤ) + (n : ℤ) * (k : ℤ) by ring,
    Int.add_mul_emod_self_left]

/-- Witness for C3 on a 3-element catalog, starting index 1, 5 iterations. -/
theorem next_previous_mod_cycle_witness :
    (0 < 3 ∧ (0 ≤ (1 : ℤ) ∧ (1 : ℤ) < 3)) ∧
      ((handleNext 3)^[5] (JSVal.num 1) = JSVal.num ((1 + 5) % 3) ∧
        (handlePrevious 3)^[5] (JSVal.num 1) = JSVal.num ((1 - 5 + 5 * 3) % 3) ∧
        (handleNext 3)^[3] (JSVal.num 0) = JSVal.num 0) :=
  ⟨⟨by decide, by decide⟩, next_previous_mod_cycle 3 1 5 (by decide) (by decide)⟩

/-- Counterexample to C4 as stated: clicking an id absent from the catalog
`[1, 2, 3]` does not leave the state unchanged — `findIndex` returns `-1`,
which is stored, and the popup is shown. -/
theorem handleImageClick_absent_id_changes_state :
    handleImageClick [1, 2, 3] 99 ⟨some (JSVal.num 0), false⟩ ≠
      ⟨some (JSVal.num 0), false⟩ := by
  decide

/-- C4 (amended): for an id absent from the catalog, `handleImageClick`
stores the `findIndex` not-found sentinel `-1` in `selectedImageIndex` and
sets `showPopup` to `true`; it does not throw, but it is not a no-op. -/
theorem handleImageClick_absent_id_sets_minus_one (ids : List ℤ) (id : ℤ)
    (s : SelectionState) (h : id ∉ ids) :
    handleImageClick ids id s =
      { s with selectedImageIndex := some (JSVal.num (-1)), showPopup := true } := by
  simp only [handleImageClick, jsFindIndex]
  have hnone : ids.findIdx? (fun i => i = id) = none := by
    rw [List.findIdx?_eq_none_iff]
    intro x hx
    simp only [decide_eq_false_iff_not]
    exact fun hxe => h (hxe ▸ hx)
  rw [hnone]

/-- Witness for C4 (amended) with catalog `[1, 2, 3]` and absent id `99`. -/
theorem handleImageClick_absent_id_sets_minus_one_witness :
    (99 : ℤ) ∉ ([1, 2, 3] : List ℤ) ∧
      handleImageClick [1, 2, 3] 99 ⟨some (JSVal.num 0), false⟩ =
        ⟨some (JSVal.num (-1)), true⟩ :=
  ⟨by decide, handleImageClick_absent_id_sets_minus_one [1, 2, 3] 99
    ⟨some (JSVal.num 0), false⟩ (by decide)⟩

/-- Counterexample to C5 as stated: on an empty catalog, `handleNext` does
not leave `selectedImageIndex` unchanged — `(0 + 1) % 0` is `NaN` in
JavaScript, so the index becomes `NaN`. -/
theorem handleNext_empty_catalog_not_noop :
    handleNext 0 (JSVal.num 0) ≠ JSVal.num 0 := by
  decide

/-- C5 (amended): on an empty catalog, `handleNext` and `handlePrevious`
terminate without a division error and without looping, but they set
`selectedImageIndex` to `NaN` (the JavaScript remainder by zero) rather
than leaving it unchanged. -/
theorem next_previous_empty_catalog_nan (i : ℤ) :
    handleNext 0 (JSVal.num i) = JSVal.nan ∧
      handlePrevious 0 (JSVal.num i) = JSVal.nan := by
  constructor <;> simp [handleNext, handlePrevious, jsAdd1, jsSub1Add, jsMod]

/-- Peeling one application of `popupStep` off the front of an iterate. -/
theorem popupStep_iterate_shift (k : ℕ) (x y : ℚ) (h : popupStep x = y) :
    popupStep^[k + 1] x = popupStep^[k] y := by
  rw [Function.iterate_succ_apply, h]

/-- For a scale in `[0.7, 1]`, one `popupStep` does not decrease it and does
not overshoot `1`. -/
theorem popupStep_between (s : ℚ) (h1 : 7 / 10 ≤ s) (h2 : s ≤ 1) :
    s ≤ popupStep s ∧ popupStep s ≤ 1 := by
  unfold popupStep jsAbs
  dsimp only
  split_ifs <;> constructor <;> linarith

/-- Every iterate of `popupStep` from the initial scale `0.7` stays in `[0.7, 1]`. -/
theorem popupStep_iterate_bounds (k : ℕ) :
    7 / 10 ≤ popupStep^[k] (7 / 10) ∧ popupStep^[k] (7 / 10) ≤ 1 := by
  induction k with
  | zero => norm_num
  | succ k ih =>
      rw [Function.iterate_succ_apply']
      exact ⟨le_trans ih.1 (popupStep_between _ ih.1 ih.2).1,
        (popupStep_between _ ih.1 ih.2).2⟩

/-- C10: throughout the popup scale-in animation the scale stays within
`[0.7, 1]`: it starts at `0.7`, each frame step is monotonically
non-decreasing and never overshoots `1`, and the final snap (here at the
21st frame) sets the scale to exactly `1`. -/
theorem popupScale_bounded_monotone_snaps :
    (∀ k : ℕ, 7 / 10 ≤ popupStep^[k] (7 / 10) ∧ popupStep^[k] (7 / 10) ≤ 1 ∧
        popupStep^[k] (7 / 10) ≤ popupStep^[k + 1] (7 / 10)) ∧
      popupStep^[21] (7 / 10) = 1 := by
  constructor
  · intro k
    obtain ⟨hb1, hb2⟩ := popupStep_iterate_bounds k
    refine ⟨hb1, hb2, ?_⟩
    rw [Function.iterate_succ_apply']
    exact (popupStep_between _ hb1 hb2).1
  · have h1 : popupStep (7 / 10 : ℚ) = (149 / 200 : ℚ) := by
      norm_num [popupStep, jsAbs]
    have h2 : popupStep (149 / 200 : ℚ) = (3133 / 4000 : ℚ) := by
      norm_num [popupStep, jsAbs]
    have h3 : popupStep (3133 / 4000 : ℚ) = (65261 / 80000 : ℚ) := by
      norm_num [popupStep, jsAbs]
    have h4 : popupStep (65261 / 80000 : ℚ) = (1349437 / 1600000 : ℚ) := by
      norm_num [popupStep, jsAbs]
    have h5 : popupStep (1349437 / 1600000 : ℚ) = (27740429 / 32000000 : ℚ) := by
      norm_num [popupStep, jsAbs]
    have h6 : popupStep (27740429 / 32000000 : ℚ) = (567587293 / 640000000 : ℚ) := by
      norm_num [popupStep, jsAbs]
    have h7 : popupStep (567587293 / 640000000 : ℚ) = (11568983981 / 12800000000 : ℚ) := by
      norm_num [popupStep, jsAbs]
    have h8 : popupStep (11568983981 / 12800000000 : ℚ) = (235072727677 / 256000000000 : ℚ) := by
      norm_num [popupStep, jsAbs]
    have h9 : popupStep (235072727677 / 256000000000 : ℚ) = (4764236370509 / 5120000000000 : ℚ) := by
      norm_num [popupStep, jsAbs]
    have h10 : popupStep (4764236370509 / 5120000000000 : ℚ) = (96352018298653 / 102400000000000 : ℚ) := by
      norm_num [popupStep, jsAbs]
    have h11 : popupStep (96352018298653 / 102400000000000 : ℚ) = (1945184311077101 / 2048000000000000 : ℚ) := by
      norm_num [popupStep, jsAbs]
    have h12 : popupStep (1945184311077101 / 2048000000000000 : ℚ) = (39212133288310717 / 40960000000000000 : ℚ) := by
      norm_num [popupStep, jsAbs]
    have h13 : popupStep (39212133288310717 / 40960000000000000 : ℚ) = (789486265901282189 / 819200000000000000 : ℚ) := by
      norm_num [popupStep, jsAbs]
    have h14 : popupStep (789486265901282189 / 819200000000000000 : ℚ) = (15878866520321797213 / 16384000000000000000 : ℚ) := by
      norm_num [popupStep, jsAbs]
    have h15 : popupStep (15878866520321797213 / 16384000000000000000 : ℚ) = (319092730845470552621 / 327680000000000000000 : ℚ) := by
      norm_num [popupStep, jsAbs]
    have h16 : popupStep (319092730845470552621 / 327680000000000000000 : ℚ) = (6407616424372999394557 / 6553600000000000000000 : ℚ) := by
      norm_num [popupStep, jsAbs]
    have h17 : popupStep (6407616424372999394557 / 6553600000000000000000 : ℚ) = (128590279214340989707469 / 131072000000000000000000 : ℚ) := by
      norm_num [popupStep, jsAbs]
    have h18 : popupStep (128590279214340989707469 / 131072000000000000000000 : ℚ) = (2579250746643796825026973 / 2621440000000000000000000 : ℚ) := by
      norm_num [popupStep, jsAbs]
    have h19 : popupStep (2579250746643796825026973 / 2621440000000000000000000 : ℚ) = (51711582692944546025458541 / 52428800000000000000000000 : ℚ) := by
      norm_num [popupStep, jsAbs]
    have h20 : popupStep (51711582692944546025458541 / 52428800000000000000000000 : ℚ) = (1036383305780057282432795197 / 1048576000000000000000000000 : ℚ) := by
      norm_num [popupStep, jsAbs]
    have h21 : popupStep (1036383305780057282432795197 / 1048576000000000000000000000 : ℚ) = (1 : ℚ) := by
      norm_num [popupStep, jsAbs]
    calc popupStep^[21] (7 / 10 : ℚ)
        _ = popupStep^[20] (149 / 200 : ℚ) := popupStep_iterate_shift 20 _ _ h1
        _ = popupStep^[19] (3133 / 4000 : ℚ) := popupStep_iterate_shift 19 _ _ h2
        _ = popupStep^[18] (65261 / 80000 : ℚ) := popupStep_iterate_shift 18 _ _ h3
        _ = popupStep^[17] (1349437 / 1600000 : ℚ) := popupStep_iterate_shift 17 _ _ h4
        _ = popupStep^[16] (27740429 / 32000000 : ℚ) := popupStep_iterate_shift 16 _ _ h5
        _ = popupStep^[15] (567587293 / 640000000 : ℚ) := popupStep_iterate_shift 15 _ _ h6
        _ = popupStep^[14] (11568983981 / 12800000000 : ℚ) := popupStep_iterate_shift 14 _ _ h7
        _ = popupStep^[13] (235072727677 / 256000000000 : ℚ) := popupStep_iterate_shift 13 _ _ h8
        _ = popupStep^[12] (4764236370509 / 5120000000000 : ℚ) := popupStep_iterate_shift 12 _ _ h9
        _ = popupStep^[11] (96352018298653 / 102400000000000 : ℚ) := popupStep_iterate_shift 11 _ _ h10
        _ = popupStep^[10] (1945184311077101 / 2048000000000000 : ℚ) := popupStep_iterate_shift 10 _ _ h11
        _ = popupStep^[9] (39212133288310717 / 40960000000000000 : ℚ) := popupStep_iterate_shift 9 _ _ h12
        _ = popupStep^[8] (789486265901282189 / 819200000000000000 : ℚ) := popupStep_iterate_shift 8 _ _ h13
        _ = popupStep^[7] (15878866520321797213 / 16384000000000000000 : ℚ) := popupStep_iterate_shift 7 _ _ h14
        _ = popupStep^[6] (319092730845470552621 / 327680000000000000000 : ℚ) := popupStep_iterate_shift 6 _ _ h15
        _ = popupStep^[5] (6407616424372999394557 / 6553600000000000000000 : ℚ) := popupStep_iterate_shift 5 _ _ h16
        _ = popupStep^[4] (128590279214340989707469 / 131072000000000000000000 : ℚ) := popupStep_iterate_shift 4 _ _ h17
        _ = popupStep^[3] (2579250746643796825026973 / 2621440000000000000000000 : ℚ) := popupStep_iterate_shift 3 _ _ h18
        _ = popupStep^[2] (51711582692944546025458541 / 52428800000000000000000000 : ℚ) := popupStep_iterate_shift 2 _ _ h19
        _ = popupStep^[1] (1036383305780057282432795197 / 1048576000000000000000000000 : ℚ) := popupStep_iterate_shift 1 _ _ h20
        _ = popupStep^[0] (1 : ℚ) := popupStep_iterate_shift 0 _ _ h21
        _ = 1 := rfl
